import Mathlib

/-
Shallow embedding of src/Rendering/Volume2/vtkSinglePassVolumeMapper.cxx.

The mapper validates render preconditions (ValidateRender), encodes the
scalar field into a GPU texture format with a shift/scale pair (LoadVolume),
computes a world-space bounding box under point- or cell-centered semantics
(ComputeBounds), maintains color/opacity transfer-function tables
(UpdateColorTransferFunction / UpdateOpacityTransferFunction), caches a
procedural noise grid (UpdateNoiseTexture), and marshals per-frame shader
uniforms before one indexed draw (GPURender).

Machine doubles are modelled as rationals; the arithmetic in the source is
exact on rational inputs, so this is the standard idealization.  GPU calls
are modelled by the data they would receive.
-/

set_option maxHeartbeats 1000000

namespace SinglePassVolumeMapper

/-- Scalar storage types of the VTK data array, as dispatched on by the
source (the constructors cover every case label appearing in
ValidateRender and LoadVolume). -/
inductive ScalarType
  | float
  | unsignedChar
  | signedChar
  | char
  | bit
  | idType
  | int
  | double
  | int64
  | long
  | longLong
  | uint64
  | unsignedLong
  | unsignedLongLong
  | short
  | string
  | unsignedShort
  | unsignedInt
deriving DecidableEq, Repr

/-- Blend-mode constants of vtkVolumeMapper; the member `BlendMode` is a
plain int in the source, so blend modes are modelled as integers. -/
def COMPOSITE_BLEND : Int := 0

/-- Blend-mode constant MAXIMUM_INTENSITY_BLEND. -/
def MAXIMUM_INTENSITY_BLEND : Int := 1

/-- Blend-mode constant MINIMUM_INTENSITY_BLEND. -/
def MINIMUM_INTENSITY_BLEND : Int := 2

/-- Blend-mode constant ADDITIVE_BLEND. -/
def ADDITIVE_BLEND : Int := 3

/-- The scalar array found on the input by GetScalars: its data type and
number of components. -/
structure ScalarsInfo where
  dataType : ScalarType
  numberOfComponents : Int
deriving DecidableEq, Repr

/-- Everything ValidateRender inspects: presence of the renderer, the
volume and the input dataset, the scalar lookup result (`none` models
GetScalars returning NULL), the association flag written into
Implementation->CellFlag by GetScalars (0 = point, 1 = cell, 2 = field),
the property value IndependentComponents, and the mapper blend mode. -/
structure MapperInput where
  renPresent : Bool
  volPresent : Bool
  inputPresent : Bool
  scalars : Option ScalarsInfo
  cellFlag : Int
  independentComponents : Int
  blendMode : Int
deriving DecidableEq, Repr

/-- The scalar-type switch of ValidateRender (lines 850-876): the cases
VTK_CHAR, VTK_BIT, VTK_ID_TYPE and VTK_STRING clear goodSoFar; the default
branch accepts every other type. -/
def validateScalarType (t : ScalarType) : Bool :=
  match t with
  | .char => false
  | .bit => false
  | .idType => false
  | .string => false
  | _ => true

/-- Labels for the successive guarded checks of ValidateRender, in source
order.  Each check in the source only executes while goodSoFar is still 1. -/
inductive Check
  | renderer
  | volume
  | inputData
  | scalarsFound
  | fieldAssociation
  | scalarTypeCheck
  | blendModeCheck
  | componentCount
  | fourComponentUChar
  | additiveOneComponent
deriving DecidableEq, Repr

/-- Result of one check of ValidateRender when it executes.  The checks
reading the scalar array run only after `scalarsFound` passed, so the
`none` branches below are unreachable in an executed trace. -/
def checkResult (x : MapperInput) : Check → Bool
  | .renderer => x.renPresent
  | .volume => x.volPresent
  | .inputData => x.inputPresent
  | .scalarsFound => x.scalars.isSome
  | .fieldAssociation => !(x.cellFlag == 2)
  | .scalarTypeCheck =>
      match x.scalars with
      | some s => validateScalarType s.dataType
      | none => true
  | .blendModeCheck =>
      (x.blendMode == COMPOSITE_BLEND) ||
      (x.blendMode == MAXIMUM_INTENSITY_BLEND) ||
      (x.blendMode == MINIMUM_INTENSITY_BLEND) ||
      (x.blendMode == ADDITIVE_BLEND)
  | .componentCount =>
      match x.scalars with
      | some s =>
          (s.numberOfComponents == 1) ||
          ((s.numberOfComponents == 4) && (x.independentComponents == 0))
      | none => true
  | .fourComponentUChar =>
      match x.scalars with
      | some s =>
          !((s.numberOfComponents == 4) &&
            !(s.dataType == ScalarType.unsignedChar))
      | none => true
  | .additiveOneComponent =>
      match x.scalars with
      | some s =>
          !(!(s.numberOfComponents == 1) && (x.blendMode == ADDITIVE_BLEND))
      | none => true

/-- The checks of ValidateRender in the order they appear in the source. -/
def checkOrder : List Check :=
  [.renderer, .volume, .inputData, .scalarsFound, .fieldAssociation,
   .scalarTypeCheck, .blendModeCheck, .componentCount, .fourComponentUChar,
   .additiveOneComponent]

/-- One step of the goodSoFar state machine: while goodSoFar holds, the
next check executes (and is recorded in the trace); after a failure every
remaining check is skipped. -/
def validateStep (x : MapperInput) (acc : List Check × Bool) (c : Check) :
    List Check × Bool :=
  if acc.2 then (acc.1 ++ [c], checkResult x c) else acc

/-- Executed-check trace and final goodSoFar value of ValidateRender. -/
def validateTrace (x : MapperInput) : List Check × Bool :=
  checkOrder.foldl (validateStep x) ([], true)

/-- ValidateRender (lines 775-929): returns the final goodSoFar as an int
(1 = success, 0 = failure). -/
def ValidateRender (x : MapperInput) : Int :=
  if (validateTrace x).2 then 1 else 0

/-- Render (lines 936-958): GPURender is invoked exactly when
ValidateRender returned nonzero; the returned Bool records whether the
GPURender call happened this frame. -/
def Render (x : MapperInput) : Bool :=
  ValidateRender x == 1

/-! ## Scalar encoder (vtkInternal::LoadVolume, lines 316-423) -/

/-- VTK sentinel constant VTK_UNSIGNED_CHAR_MAX. -/
def VTK_UNSIGNED_CHAR_MAX : ℚ := 255

/-- VTK sentinel constant VTK_SIGNED_CHAR_MAX. -/
def VTK_SIGNED_CHAR_MAX : ℚ := 127

/-- VTK sentinel constant VTK_SHORT_MAX. -/
def VTK_SHORT_MAX : ℚ := 32767

/-- VTK sentinel constant VTK_UNSIGNED_SHORT_MAX. -/
def VTK_UNSIGNED_SHORT_MAX : ℚ := 65535

/-- VTK sentinel constant VTK_INT_MAX. -/
def VTK_INT_MAX : ℚ := 2147483647

/-- VTK sentinel constant VTK_UNSIGNED_INT_MAX. -/
def VTK_UNSIGNED_INT_MAX : ℚ := 4294967295

/-- GPU internal texture formats selected by LoadVolume. -/
inductive TexFormat
  | rgba16
  | intensity16F
  | intensity16
  | intensity8
deriving DecidableEq, Repr

/-- Outcome of the format-selection switch in LoadVolume: a supported
single-component type yields a format with a shift/scale pair; 4-component
data takes the RGBA path (shift/scale keep their defaults 0 and 1); the
types guarded by `assert("check: impossible case" && 0)` are marked
`assertImpossible`; the VTK_DOUBLE / 64-bit-integer group only prints a
message and selects no format (`unsupportedTodo`), leaving the texture
format variables at 0. -/
inductive EncoderBranch
  | ok (internalFormat : TexFormat) (shift scale : ℚ)
  | rgba
  | assertImpossible
  | unsupportedTodo
deriving DecidableEq, Repr

/-- Format-selection switch of LoadVolume.  `floatTexSupported` models
glewIsSupported("GL_ARB_texture_float"); `r0`, `r1` are
ScalarsRange[0] and ScalarsRange[1]. -/
def volumeEncoding (floatTexSupported : Bool) (numberOfComponents : Int)
    (t : ScalarType) (r0 r1 : ℚ) : EncoderBranch :=
  if numberOfComponents = 4 then
    .rgba
  else
    match t with
    | .float =>
        .ok (if floatTexSupported then .intensity16F else .intensity16)
          (-r0) (1 / (r1 - r0))
    | .unsignedChar =>
        .ok .intensity8 (-r0 / VTK_UNSIGNED_CHAR_MAX)
          (VTK_UNSIGNED_CHAR_MAX / (r1 - r0))
    | .signedChar =>
        .ok .intensity8 (-(2 * r0 + 1) / VTK_UNSIGNED_CHAR_MAX)
          (VTK_SIGNED_CHAR_MAX / (r1 - r0))
    | .char => .assertImpossible
    | .bit => .assertImpossible
    | .idType => .assertImpossible
    | .int =>
        .ok .intensity16 (-(2 * r0 + 1) / VTK_UNSIGNED_INT_MAX)
          (VTK_INT_MAX / (r1 - r0))
    | .double => .unsupportedTodo
    | .int64 => .unsupportedTodo
    | .long => .unsupportedTodo
    | .longLong => .unsupportedTodo
    | .uint64 => .unsupportedTodo
    | .unsignedLong => .unsupportedTodo
    | .unsignedLongLong => .unsupportedTodo
    | .short =>
        .ok .intensity16 (-(2 * r0 + 1) / VTK_UNSIGNED_SHORT_MAX)
          (VTK_SHORT_MAX / (r1 - r0))
    | .string => .assertImpossible
    | .unsignedShort =>
        .ok .intensity16 (-r0 / VTK_UNSIGNED_SHORT_MAX)
          (VTK_UNSIGNED_SHORT_MAX / (r1 - r0))
    | .unsignedInt =>
        .ok .intensity16 (-r0 / VTK_UNSIGNED_INT_MAX)
          (VTK_UNSIGNED_INT_MAX / (r1 - r0))

/-- Modelled from the spec: the OpenGL fixed-point normalization that the
GPU applies to uploaded texels of each transfer type (an external
collaborator; the shader sees the normalized value).  Unsigned integer
texels map as c / (2^b - 1), signed ones as (2c + 1) / (2^b - 1), float
texels are passed through — the convention the shift formulas of
LoadVolume are written against. -/
def glNormalize (t : ScalarType) (v : ℚ) : ℚ :=
  match t with
  | .float => v
  | .unsignedChar => v / 255
  | .signedChar => (2 * v + 1) / 255
  | .short => (2 * v + 1) / 65535
  | .unsignedShort => v / 65535
  | .int => (2 * v + 1) / 4294967295
  | .unsignedInt => v / 4294967295
  | _ => v

/-- Affine map applied to a normalized texel by the shader:
encoded = (normalized_raw + shift) * scale. -/
def encode (t : ScalarType) (shift scale v : ℚ) : ℚ :=
  (glNormalize t v + shift) * scale

/-- Scalar types for which the single-component switch of LoadVolume
selects a texture format (the supported allow-list). -/
def singleComponentSupported (t : ScalarType) : Bool :=
  match t with
  | .float => true
  | .unsignedChar => true
  | .signedChar => true
  | .short => true
  | .unsignedShort => true
  | .int => true
  | .unsignedInt => true
  | _ => false

/-- Modelled from the spec (claim C1 wording, for refinement comparison):
the supported set named by the spec — 8/16/32-bit signed and unsigned
integers, 32-bit float for single-component data, or 4-component unsigned
byte. -/
def specSupportedInput (numberOfComponents : Int) (t : ScalarType) : Bool :=
  if numberOfComponents = 4 then t == .unsignedChar
  else singleComponentSupported t

/-! ## Bounds computation (vtkInternal::ComputeBounds, lines 480-550) -/

/-- The attributes of the vtkImageData input read by this file: extent
(six inclusive integer bounds), spacing and origin per axis, and the
modification timestamp used by IsDataDirty. -/
structure ImageData where
  e0 : Int
  e1 : Int
  e2 : Int
  e3 : Int
  e4 : Int
  e5 : Int
  sx : ℚ
  sy : ℚ
  sz : ℚ
  ox : ℚ
  oy : ℚ
  oz : ℚ
  mtime : Nat
deriving DecidableEq, Repr

/-- A six-entry bounds array [xmin, xmax, ymin, ymax, zmin, zmax]. -/
structure Bounds6 where
  b0 : ℚ
  b1 : ℚ
  b2 : ℚ
  b3 : ℚ
  b4 : ℚ
  b5 : ℚ
deriving DecidableEq, Repr

/-- ComputeBounds.  `cellFlag` is Implementation->CellFlag (true = the
loaded extents represent cells).  The point branch writes
Bounds[2i + swap] and Bounds[2i + 1 - swap] where swap_i = (spacing_i < 0);
the cell branch first copies the input extent into wholeTextureExtent and
decrements its odd entries, then compares this->Extents (filled from the
same input extent) against it per axis. -/
def ComputeBounds (cellFlag : Bool) (input : ImageData) : Bounds6 :=
  let swap0 : Bool := decide (input.sx < 0)
  let swap1 : Bool := decide (input.sy < 0)
  let swap2 : Bool := decide (input.sz < 0)
  if !cellFlag then
    -- Bounds[0] = origin[0] + Extents[0 + swap0] * spacing[0], etc.
    { b0 := input.ox + (if swap0 then (input.e1 : ℚ) else (input.e0 : ℚ)) * input.sx
      b2 := input.oy + (if swap1 then (input.e3 : ℚ) else (input.e2 : ℚ)) * input.sy
      b4 := input.oz + (if swap2 then (input.e5 : ℚ) else (input.e4 : ℚ)) * input.sz
      b1 := input.ox + (if swap0 then (input.e0 : ℚ) else (input.e1 : ℚ)) * input.sx
      b3 := input.oy + (if swap1 then (input.e2 : ℚ) else (input.e3 : ℚ)) * input.sy
      b5 := input.oz + (if swap2 then (input.e4 : ℚ) else (input.e5 : ℚ)) * input.sz }
  else
    -- wholeTextureExtent = input extent, odd entries decremented
    let w0 := input.e0
    let w1 := input.e1 - 1
    let w2 := input.e2
    let w3 := input.e3 - 1
    let w4 := input.e4
    let w5 := input.e5 - 1
    -- per axis: Bounds[2i + swap] from the lower comparison,
    --           Bounds[2i + 1 - swap] from the upper comparison
    let lowX : ℚ :=
      if input.e0 = w0 then input.ox
      else input.ox + ((input.e0 : ℚ) + 1/2) * input.sx
    let highX : ℚ :=
      if input.e1 = w1 then input.ox + ((input.e1 : ℚ) + 1) * input.sx
      else input.ox + ((input.e1 : ℚ) + 1/2) * input.sx
    let lowY : ℚ :=
      if input.e2 = w2 then input.oy
      else input.oy + ((input.e2 : ℚ) + 1/2) * input.sy
    let highY : ℚ :=
      if input.e3 = w3 then input.oy + ((input.e3 : ℚ) + 1) * input.sy
      else input.oy + ((input.e3 : ℚ) + 1/2) * input.sy
    let lowZ : ℚ :=
      if input.e4 = w4 then input.oz
      else input.oz + ((input.e4 : ℚ) + 1/2) * input.sz
    let highZ : ℚ :=
      if input.e5 = w5 then input.oz + ((input.e5 : ℚ) + 1) * input.sz
      else input.oz + ((input.e5 : ℚ) + 1/2) * input.sz
    { b0 := if swap0 then highX else lowX
      b1 := if swap0 then lowX else highX
      b2 := if swap1 then highY else lowY
      b3 := if swap1 then lowY else highY
      b4 := if swap2 then highZ else lowZ
      b5 := if swap2 then lowZ else highZ }

/-! ## Transfer-function updates (lines 553-625) -/

/-- One control point of the color transfer function:
AddRGBPoint(x, r, g, b). -/
structure RGBPoint where
  x : ℚ
  r : ℚ
  g : ℚ
  b : ℚ
deriving DecidableEq, Repr

/-- One control point of the scalar opacity piecewise function:
AddPoint(x, a). -/
structure OpacityPoint where
  x : ℚ
  a : ℚ
deriving DecidableEq, Repr

/-- Result of UpdateColorTransferFunction: the returned int (0 passed,
1 failed), the color transfer function after the call (the only mutation
the function performs on it is the default-point seeding), and whether a
diagnostic was written to cerr. -/
structure ColorUpdateResult where
  code : Int
  colorTF : List RGBPoint
  logged : Bool
deriving DecidableEq, Repr

/-- Result of UpdateOpacityTransferFunction, mirroring
ColorUpdateResult. -/
structure OpacityUpdateResult where
  code : Int
  opacityTF : List OpacityPoint
  logged : Bool
deriving DecidableEq, Repr

/-- UpdateColorTransferFunction (lines 553-585): with one component it
seeds two default RGB points when the function has fewer than 1 point
(GetSize() < 1) and returns 0; otherwise it logs and returns 1.
`r0`, `r1` are ScalarsRange[0] and ScalarsRange[1]. -/
def UpdateColorTransferFunction (numberOfScalarComponents : Int)
    (colorTF : List RGBPoint) (r0 r1 : ℚ) : ColorUpdateResult :=
  if numberOfScalarComponents = 1 then
    let tf :=
      if colorTF.length < 1 then
        colorTF ++ [⟨r0, 0, 0, 0⟩, ⟨r1, 1, 1, 1⟩]
      else colorTF
    ⟨0, tf, false⟩
  else
    ⟨1, colorTF, true⟩

/-- UpdateOpacityTransferFunction (lines 588-625): rejects a null volume
and non-single-component data with return value 1; otherwise seeds two
default opacity points when the function has fewer than 1 point and
returns 0. -/
def UpdateOpacityTransferFunction (volPresent : Bool)
    (numberOfScalarComponents : Int) (opacityTF : List OpacityPoint)
    (r0 r1 : ℚ) : OpacityUpdateResult :=
  if !volPresent then
    ⟨1, opacityTF, true⟩
  else if numberOfScalarComponents ≠ 1 then
    ⟨1, opacityTF, true⟩
  else
    let tf :=
      if opacityTF.length < 1 then
        opacityTF ++ [⟨r0, 0⟩, ⟨r1, 1/2⟩]
      else opacityTF
    ⟨0, tf, false⟩

/-! ## Noise texture (vtkInternal::UpdateNoiseTexture, lines 628-683) -/

/-- The noise cache of vtkInternal: NoiseTextureData (none models the
null pointer) and NoiseTextureSize. -/
structure NoiseState where
  noiseTextureData : Option (List ℚ)
  noiseTextureSize : Int
deriving DecidableEq, Repr

/-- Constant amplitude = 0.5f * 0.1f of UpdateNoiseTexture. -/
def noiseAmplitude : ℚ := (1/2) * (1/10)

/-- The generated grid: entry j * size + i holds
amplitude + noiseGenerator->EvaluateFunction(i, j, 0).  The Perlin
generator is an external collaborator (spec: a pure deterministic
function), passed in as `noise`. -/
def generateNoiseGrid (noise : Nat → Nat → ℚ) (size : Nat) : List ℚ :=
  (List.range size).flatMap
    (fun j => (List.range size).map (fun i => noiseAmplitude + noise i j))

/-- The target grid size: 128 clamped down to the device maximum
(GL_MAX_TEXTURE_SIZE). -/
def clampNoiseSize (maxSize : Int) : Int :=
  if 128 > maxSize then maxSize else 128

/-- UpdateNoiseTexture.  The whole body is guarded by
NoiseTextureData == 0; inside, the stale-size deletion branch and a second
null test precede generation — both are mirrored even though the outer
guard makes the deletion branch unreachable. -/
def UpdateNoiseTexture (noise : Nat → Nat → ℚ) (maxSize : Int)
    (s : NoiseState) : NoiseState :=
  if s.noiseTextureData = none then
    let size := clampNoiseSize maxSize
    let s1 :=
      if s.noiseTextureData ≠ none ∧ s.noiseTextureSize ≠ size then
        { s with noiseTextureData := none }
      else s
    if s1.noiseTextureData = none then
      { noiseTextureData := some (generateNoiseGrid noise size.toNat)
        noiseTextureSize := size }
    else s1
  else s

/-! ## Volume upload and dirtiness (lines 289-474) -/

/-- The slice of vtkInternal state touched by LoadVolume and IsDataDirty.
VTK timestamps come from one global monotone counter; `mtimeCounter`
models that counter (every existing object mtime is at most its current
value), and vtkTimeStamp::Modified() assigns the incremented counter. -/
structure MapperState where
  volumeBuildTime : Nat
  mtimeCounter : Nat
  scale : ℚ
  ext0 : Int
  ext1 : Int
  ext2 : Int
  ext3 : Int
  ext4 : Int
  ext5 : Int
  ts0 : Int
  ts1 : Int
  ts2 : Int
deriving DecidableEq, Repr

/-- LoadVolume (lines 289-448): runs the format-selection switch, stores
the resulting scale (unsupported branches leave the default 1.0), copies
the input extent, derives the texture size, uploads the texture, calls
VolumeBuildTime.Modified() and returns 1 — on every path. -/
def LoadVolume (floatTexSupported : Bool) (input : ImageData)
    (scalars : ScalarsInfo) (r0 r1 : ℚ) (s : MapperState) :
    Int × MapperState :=
  let branch := volumeEncoding floatTexSupported scalars.numberOfComponents
    scalars.dataType r0 r1
  let scale : ℚ :=
    match branch with
    | .ok _ _ sc => sc
    | _ => 1
  (1,
    { volumeBuildTime := s.mtimeCounter + 1
      mtimeCounter := s.mtimeCounter + 1
      scale := scale
      ext0 := input.e0, ext1 := input.e1, ext2 := input.e2
      ext3 := input.e3, ext4 := input.e4, ext5 := input.e5
      ts0 := input.e1 - input.e0 + 1
      ts1 := input.e3 - input.e2 + 1
      ts2 := input.e5 - input.e4 + 1 })

/-- IsDataDirty (lines 464-474): the input is dirty when its modification
time exceeds VolumeBuildTime. -/
def IsDataDirty (input : ImageData) (s : MapperState) : Bool :=
  decide (s.volumeBuildTime < input.mtime)

/-! ## GPURender uniform marshaling and draw (lines 965-1196) -/

/-- The per-frame uniforms GPURender derives from bounds geometry:
step_size (reciprocal of each axis extent) and cell_scale (half of each
axis extent), plus the index count of the one glDrawElements call. -/
structure ShaderUniforms where
  stepSize0 : ℚ
  stepSize1 : ℚ
  stepSize2 : ℚ
  cellScale0 : ℚ
  cellScale1 : ℚ
  cellScale2 : ℚ
  drawIndexCount : Int
deriving DecidableEq, Repr

/-- Observable outcome of one GPURender call: the return codes of the two
transfer-function updates (and whether they logged), the marshaled
uniforms, the bounds the cube geometry is built from
(UpdateVolumeGeometry reads Implementation->Bounds), and whether the draw
call was issued. -/
structure GPURenderOutcome where
  opacityCode : Int
  opacityLogged : Bool
  colorCode : Int
  colorLogged : Bool
  uniforms : ShaderUniforms
  geometryBounds : Bounds6
  drawIssued : Bool
deriving DecidableEq, Repr

/-- GPURender (dirty-frame slice).  `mapperBounds` is this->Bounds — the
base-class vtkAbstractMapper3D member filled by the upstream GetBounds
pipeline (modelled from the spec: nothing in this source file writes it);
`implementationBounds` is this->Implementation->Bounds as produced by
ComputeBounds.  The source computes StepSize and CellScale from
this->Bounds (lines 1033-1039) while UpdateVolumeGeometry builds the cube
from Implementation->Bounds (lines 686-737); the transfer-function update
return values are not inspected and glDrawElements(GL_TRIANGLES, 36, ...)
is always reached. -/
def GPURender (mapperBounds implementationBounds : Bounds6)
    (volPresent : Bool) (numberOfScalarComponents : Int)
    (colorTF : List RGBPoint) (opacityTF : List OpacityPoint)
    (r0 r1 : ℚ) : GPURenderOutcome :=
  let opacity := UpdateOpacityTransferFunction volPresent
    numberOfScalarComponents opacityTF r0 r1
  let color := UpdateColorTransferFunction numberOfScalarComponents
    colorTF r0 r1
  { opacityCode := opacity.code
    opacityLogged := opacity.logged
    colorCode := color.code
    colorLogged := color.logged
    uniforms :=
      { stepSize0 := 1 / (mapperBounds.b1 - mapperBounds.b0)
        stepSize1 := 1 / (mapperBounds.b3 - mapperBounds.b2)
        stepSize2 := 1 / (mapperBounds.b5 - mapperBounds.b4)
        cellScale0 := (mapperBounds.b1 - mapperBounds.b0) * (1/2)
        cellScale1 := (mapperBounds.b3 - mapperBounds.b2) * (1/2)
        cellScale2 := (mapperBounds.b5 - mapperBounds.b4) * (1/2)
        drawIndexCount := 36 }
    geometryBounds := implementationBounds
    drawIssued := true }

/-! ## Helper lemmas about the check fold of ValidateRender -/

/-- Once goodSoFar is cleared, the remaining checks leave the accumulator
unchanged. -/
theorem foldl_validateStep_false (x : MapperInput) (l : List Check)
    (tr : List Check) : l.foldl (validateStep x) (tr, false) = (tr, false) := by
  induction l generalizing tr with
  | nil => rfl
  | cons c rest ih => simpa [validateStep] using ih tr

/-- Characterization of the check fold from a passing accumulator: the
trace is the passing run of checks followed by the first failing check (if
any), and the final flag is true exactly when every check passes. -/
theorem foldl_validateStep_true (x : MapperInput) (l : List Check)
    (tr : List Check) :
    l.foldl (validateStep x) (tr, true) =
      (tr ++ l.takeWhile (checkResult x) ++
        (l.dropWhile (checkResult x)).take 1,
       l.all (checkResult x)) := by
  induction l generalizing tr with
  | nil => simp
  | cons c rest ih =>
    by_cases h : checkResult x c = true
    · rw [List.foldl_cons]
      have hstep : validateStep x (tr, true) c = (tr ++ [c], true) := by
        simp [validateStep, h]
      rw [hstep, ih (tr ++ [c])]
      simp [List.takeWhile_cons, List.dropWhile_cons, h]
    · have hf : checkResult x c = false := by simpa using h
      rw [List.foldl_cons]
      have hstep : validateStep x (tr, true) c = (tr ++ [c], false) := by
        simp [validateStep, hf]
      rw [hstep, foldl_validateStep_false]
      simp [List.takeWhile_cons, List.dropWhile_cons, hf]

/-- validateTrace in closed form. -/
theorem validateTrace_eq (x : MapperInput) :
    validateTrace x =
      (checkOrder.takeWhile (checkResult x) ++
        (checkOrder.dropWhile (checkResult x)).take 1,
       checkOrder.all (checkResult x)) := by
  simpa [validateTrace] using foldl_validateStep_true x checkOrder []

/-- ValidateRender succeeds exactly when every check passes. -/
theorem ValidateRender_eq_one_iff (x : MapperInput) :
    ValidateRender x = 1 ↔ checkOrder.all (checkResult x) = true := by
  unfold ValidateRender
  rw [validateTrace_eq]
  by_cases h : checkOrder.all (checkResult x) = true
  · simp [h]
  · have hf : checkOrder.all (checkResult x) = false := by simpa using h
    simp [hf]

/-- One failing check forces ValidateRender to return 0. -/
theorem ValidateRender_eq_zero_of_check (x : MapperInput) (c : Check)
    (hc : c ∈ checkOrder) (h : checkResult x c = false) :
    ValidateRender x = 0 := by
  unfold ValidateRender
  rw [validateTrace_eq]
  have hall : checkOrder.all (checkResult x) = false :=
    List.all_eq_false.mpr ⟨c, hc, by simp [h]⟩
  simp [hall]

/-! ## Claim C2 -/

/-- C2: ValidateRender returns 0 whenever the renderer is null, the volume
is null, the input dataset is missing, the scalars are field-associated
(neither point nor cell), the component count is neither 1 nor
4-with-non-independent-components, 4-component data is not unsigned char,
or the blend mode is additive with other than 1 component; any failure
short-circuits the remaining checks (the executed trace is the passing
run of checks followed by at most the first failing one), and Render
invokes GPURender if and only if ValidateRender returned success. -/
theorem c2_validateRender_gate (x : MapperInput) :
    (x.renPresent = false → ValidateRender x = 0) ∧
    (x.volPresent = false → ValidateRender x = 0) ∧
    (x.inputPresent = false → ValidateRender x = 0) ∧
    (x.scalars = none → ValidateRender x = 0) ∧
    (x.cellFlag = 2 → ValidateRender x = 0) ∧
    (∀ s, x.scalars = some s →
      (¬(s.numberOfComponents = 1 ∨
          (s.numberOfComponents = 4 ∧ x.independentComponents = 0)) →
        ValidateRender x = 0) ∧
      (s.numberOfComponents = 4 → s.dataType ≠ .unsignedChar →
        ValidateRender x = 0) ∧
      (x.blendMode = ADDITIVE_BLEND → s.numberOfComponents ≠ 1 →
        ValidateRender x = 0)) ∧
    (validateTrace x =
      (checkOrder.takeWhile (checkResult x) ++
        (checkOrder.dropWhile (checkResult x)).take 1,
       checkOrder.all (checkResult x))) ∧
    (Render x = true ↔ ValidateRender x = 1) := by
  refine ⟨?_, ?_, ?_, ?_, ?_, ?_, validateTrace_eq x, ?_⟩
  · intro h
    exact ValidateRender_eq_zero_of_check x .renderer (by decide)
      (by simp [checkResult, h])
  · intro h
    exact ValidateRender_eq_zero_of_check x .volume (by decide)
      (by simp [checkResult, h])
  · intro h
    exact ValidateRender_eq_zero_of_check x .inputData (by decide)
      (by simp [checkResult, h])
  · intro h
    exact ValidateRender_eq_zero_of_check x .scalarsFound (by decide)
      (by simp [checkResult, h])
  · intro h
    exact ValidateRender_eq_zero_of_check x .fieldAssociation (by decide)
      (by simp [checkResult, h])
  · intro s hs
    refine ⟨?_, ?_, ?_⟩
    · intro h
      push_neg at h
      apply ValidateRender_eq_zero_of_check x .componentCount (by decide)
      simp [checkResult, hs]
      tauto
    · intro h4 hne
      apply ValidateRender_eq_zero_of_check x .fourComponentUChar (by decide)
      simp [checkResult, hs, h4, hne]
    · intro hbm hne
      apply ValidateRender_eq_zero_of_check x .additiveOneComponent (by decide)
      simp [checkResult, hs, hbm, hne]
  · simp [Render]

/-- A null renderer with otherwise well-formed input. -/
def c2Input : MapperInput :=
  ⟨false, true, true, some ⟨.float, 1⟩, 0, 1, COMPOSITE_BLEND⟩

/-- Witness for C2: the null-renderer hypothesis is discharged at a
concrete input and ValidateRender indeed returns 0 there. -/
theorem c2_witness :
    c2Input.renPresent = false ∧ ValidateRender c2Input = 0 ∧
      Render c2Input = false :=
  ⟨rfl, (c2_validateRender_gate c2Input).1 rfl, by decide⟩

/-! ## Claim C1 -/

/-- A single-component 64-bit-integer input that is otherwise
well-formed. -/
def c1Input : MapperInput :=
  ⟨true, true, true, some ⟨.longLong, 1⟩, 0, 1, COMPOSITE_BLEND⟩

/-- C1 counterexample: a single-component long-long input is outside the
supported set, yet ValidateRender returns success for it, and the encoder
branch it reaches in LoadVolume selects no texture format — so the
unsupported-type branch is reachable in a validated render, contrary to
the claim. -/
theorem c1_counterexample :
    specSupportedInput 1 .longLong = false ∧
    ValidateRender c1Input = 1 ∧
    volumeEncoding true 1 .longLong 0 10 = .unsupportedTodo := by
  refine ⟨rfl, by decide, rfl⟩

/-- C1 (amended): the validation type check rejects exactly char, bit,
id-type and string; consequently the assert-guarded branches of the
LoadVolume encoder are unreachable in any render that passed validation.
The remaining unsupported types — double and the 64-bit integer family —
pass the validation type check and reach the encoder's format-less
branch mid-render. -/
theorem c1_validation_vs_encoder (ftex : Bool) (r0 r1 : ℚ)
    (x : MapperInput) (s : ScalarsInfo) (hs : x.scalars = some s) :
    ((s.dataType = .char ∨ s.dataType = .bit ∨ s.dataType = .idType ∨
        s.dataType = .string) → ValidateRender x = 0) ∧
    (ValidateRender x = 1 →
      volumeEncoding ftex s.numberOfComponents s.dataType r0 r1 ≠
        .assertImpossible) ∧
    (validateScalarType .double = true ∧
      validateScalarType .longLong = true ∧
      volumeEncoding ftex 1 .double r0 r1 = .unsupportedTodo ∧
      volumeEncoding ftex 1 .longLong r0 r1 = .unsupportedTodo) := by
  refine ⟨?_, ?_, rfl, rfl, rfl, rfl⟩
  · intro h
    rcases h with h | h | h | h <;>
      (apply ValidateRender_eq_zero_of_check x .scalarTypeCheck (by decide)
       simp [checkResult, hs, h, validateScalarType])
  · intro h1
    have hall := (ValidateRender_eq_one_iff x).mp h1
    have htype : validateScalarType s.dataType = true := by
      have hmem := List.all_eq_true.mp hall .scalarTypeCheck (by decide)
      simpa [checkResult, hs] using hmem
    by_cases h4 : s.numberOfComponents = 4
    · simp [volumeEncoding, h4]
    · cases hdt : s.dataType <;>
        simp_all [volumeEncoding, validateScalarType]

/-- Witness for C1: the amended theorem applied at the long-long input,
with its hypotheses discharged there. -/
theorem c1_witness :
    ValidateRender c1Input = 0 ∨
      volumeEncoding true 1 .longLong 0 10 ≠ .assertImpossible := by
  refine Or.inr ?_
  have h := (c1_validation_vs_encoder true 0 10 c1Input ⟨.longLong, 1⟩ rfl).2.1
  exact h (by decide)

/-! ## Claim C3 -/

/-- The exact value the affine encoding sends ScalarsRange[1] to, per
supported single-component type (the destination formats are normalized,
so their maximum normalized value is 1; the signed paths land one or two
ulps of the source width below it). -/
def encodedRangeMax (t : ScalarType) : ℚ :=
  match t with
  | .float => 1
  | .unsignedChar => 1
  | .signedChar => 254/255
  | .short => 65534/65535
  | .unsignedShort => 1
  | .int => 4294967294/4294967295
  | .unsignedInt => 1
  | _ => 0

/-- C3: for every supported single-component scalar type, whenever
ScalarsRange[1] > ScalarsRange[0] the encoder produces scale > 0, and the
affine map encoded = (normalized_raw + shift) * scale sends range_min to
0 and range_max to the destination format's maximum normalized value up
to 1/255 (exactly 1 for the float and unsigned paths, 254/255, 65534/65535
or 4294967294/4294967295 for the signed ones). -/
theorem c3_encoder_roundtrip (ftex : Bool) (t : ScalarType) (r0 r1 : ℚ)
    (hsupp : singleComponentSupported t = true) (hlt : r0 < r1) :
    ∃ f sh sc, volumeEncoding ftex 1 t r0 r1 = .ok f sh sc ∧
      0 < sc ∧ encode t sh sc r0 = 0 ∧
      encode t sh sc r1 = encodedRangeMax t ∧
      1 - 1/255 ≤ encodedRangeMax t ∧ encodedRangeMax t ≤ 1 := by
  have hne : r1 - r0 ≠ 0 := sub_ne_zero.mpr hlt.ne'
  have hpos : 0 < r1 - r0 := sub_pos.mpr hlt
  cases t
  case float =>
    refine ⟨if ftex then .intensity16F else .intensity16, -r0,
      1 / (r1 - r0), rfl, one_div_pos.mpr hpos, ?_, ?_,
      by norm_num [encodedRangeMax], by norm_num [encodedRangeMax]⟩
    · simp [encode, glNormalize]
    · simp only [encode, glNormalize, encodedRangeMax]
      field_simp
      ring
  case unsignedChar =>
    refine ⟨.intensity8, -r0 / VTK_UNSIGNED_CHAR_MAX,
      VTK_UNSIGNED_CHAR_MAX / (r1 - r0), rfl,
      div_pos (by norm_num [VTK_UNSIGNED_CHAR_MAX]) hpos, ?_, ?_,
      by norm_num [encodedRangeMax], by norm_num [encodedRangeMax]⟩
    · simp only [encode, glNormalize, VTK_UNSIGNED_CHAR_MAX]
      field_simp
    · simp only [encode, glNormalize, encodedRangeMax,
        VTK_UNSIGNED_CHAR_MAX]
      field_simp
      ring
  case signedChar =>
    refine ⟨.intensity8, -(2 * r0 + 1) / VTK_UNSIGNED_CHAR_MAX,
      VTK_SIGNED_CHAR_MAX / (r1 - r0), rfl,
      div_pos (by norm_num [VTK_SIGNED_CHAR_MAX]) hpos, ?_, ?_,
      by norm_num [encodedRangeMax], by norm_num [encodedRangeMax]⟩
    · simp only [encode, glNormalize, VTK_UNSIGNED_CHAR_MAX,
        VTK_SIGNED_CHAR_MAX]
      field_simp
      ring
    · simp only [encode, glNormalize, encodedRangeMax,
        VTK_UNSIGNED_CHAR_MAX, VTK_SIGNED_CHAR_MAX]
      field_simp
      ring
  case short =>
    refine ⟨.intensity16, -(2 * r0 + 1) / VTK_UNSIGNED_SHORT_MAX,
      VTK_SHORT_MAX / (r1 - r0), rfl,
      div_pos (by norm_num [VTK_SHORT_MAX]) hpos, ?_, ?_,
      by norm_num [encodedRangeMax], by norm_num [encodedRangeMax]⟩
    · simp only [encode, glNormalize, VTK_UNSIGNED_SHORT_MAX,
        VTK_SHORT_MAX]
      field_simp
      ring
    · simp only [encode, glNormalize, encodedRangeMax,
        VTK_UNSIGNED_SHORT_MAX, VTK_SHORT_MAX]
      field_simp
      ring
  case unsignedShort =>
    refine ⟨.intensity16, -r0 / VTK_UNSIGNED_SHORT_MAX,
      VTK_UNSIGNED_SHORT_MAX / (r1 - r0), rfl,
      div_pos (by norm_num [VTK_UNSIGNED_SHORT_MAX]) hpos, ?_, ?_,
      by norm_num [encodedRangeMax], by norm_num [encodedRangeMax]⟩
    · simp only [encode, glNormalize, VTK_UNSIGNED_SHORT_MAX]
      field_simp
    · simp only [encode, glNormalize, encodedRangeMax,
        VTK_UNSIGNED_SHORT_MAX]
      field_simp
      ring
  case int =>
    refine ⟨.intensity16, -(2 * r0 + 1) / VTK_UNSIGNED_INT_MAX,
      VTK_INT_MAX / (r1 - r0), rfl,
      div_pos (by norm_num [VTK_INT_MAX]) hpos, ?_, ?_,
      by norm_num [encodedRangeMax], by norm_num [encodedRangeMax]⟩
    · simp only [encode, glNormalize, VTK_UNSIGNED_INT_MAX, VTK_INT_MAX]
      field_simp
      ring
    · simp only [encode, glNormalize, encodedRangeMax,
        VTK_UNSIGNED_INT_MAX, VTK_INT_MAX]
      field_simp
      ring
  case unsignedInt =>
    refine ⟨.intensity16, -r0 / VTK_UNSIGNED_INT_MAX,
      VTK_UNSIGNED_INT_MAX / (r1 - r0), rfl,
      div_pos (by norm_num [VTK_UNSIGNED_INT_MAX]) hpos, ?_, ?_,
      by norm_num [encodedRangeMax], by norm_num [encodedRangeMax]⟩
    · simp only [encode, glNormalize, VTK_UNSIGNED_INT_MAX]
      field_simp
    · simp only [encode, glNormalize, encodedRangeMax,
        VTK_UNSIGNED_INT_MAX]
      field_simp
      ring
  all_goals exact absurd hsupp (by decide)

/-- Witness for C3: the theorem at the short type on the range [0, 100]. -/
theorem c3_witness :
    ∃ f sh sc, volumeEncoding true 1 .short 0 100 = .ok f sh sc ∧
      0 < sc ∧ encode .short sh sc 0 = 0 ∧
      encode .short sh sc 100 = encodedRangeMax .short ∧
      1 - 1/255 ≤ encodedRangeMax .short ∧
      encodedRangeMax .short ≤ 1 :=
  c3_encoder_roundtrip true .short 0 100 (by decide) (by norm_num)

/-! ## Claim C4 -/

/-- C4: in point semantics, each axis bound is origin + extent_edge *
spacing with the edge selection swapped on axes whose spacing is negative;
under the extent well-ordering invariant (min ≤ max per axis) the
returned box always satisfies Bounds[2i] ≤ Bounds[2i+1], and calling
ComputeBounds twice with identical inputs yields identical bounds. -/
theorem c4_point_bounds (input : ImageData)
    (h01 : input.e0 ≤ input.e1) (h23 : input.e2 ≤ input.e3)
    (h45 : input.e4 ≤ input.e5) :
    ((ComputeBounds false input).b0 =
      input.ox + (if input.sx < 0 then (input.e1 : ℚ) else (input.e0 : ℚ)) * input.sx) ∧
    ((ComputeBounds false input).b1 =
      input.ox + (if input.sx < 0 then (input.e0 : ℚ) else (input.e1 : ℚ)) * input.sx) ∧
    ((ComputeBounds false input).b2 =
      input.oy + (if input.sy < 0 then (input.e3 : ℚ) else (input.e2 : ℚ)) * input.sy) ∧
    ((ComputeBounds false input).b3 =
      input.oy + (if input.sy < 0 then (input.e2 : ℚ) else (input.e3 : ℚ)) * input.sy) ∧
    ((ComputeBounds false input).b4 =
      input.oz + (if input.sz < 0 then (input.e5 : ℚ) else (input.e4 : ℚ)) * input.sz) ∧
    ((ComputeBounds false input).b5 =
      input.oz + (if input.sz < 0 then (input.e4 : ℚ) else (input.e5 : ℚ)) * input.sz) ∧
    (ComputeBounds false input).b0 ≤ (ComputeBounds false input).b1 ∧
    (ComputeBounds false input).b2 ≤ (ComputeBounds false input).b3 ∧
    (ComputeBounds false input).b4 ≤ (ComputeBounds false input).b5 ∧
    ComputeBounds false input = ComputeBounds false input := by
  have q01 : (input.e0 : ℚ) ≤ (input.e1 : ℚ) := by exact_mod_cast h01
  have q23 : (input.e2 : ℚ) ≤ (input.e3 : ℚ) := by exact_mod_cast h23
  have q45 : (input.e4 : ℚ) ≤ (input.e5 : ℚ) := by exact_mod_cast h45
  refine ⟨?_, ?_, ?_, ?_, ?_, ?_, ?_, ?_, ?_, rfl⟩
  · by_cases hx : input.sx < 0 <;> simp [ComputeBounds, hx]
  · by_cases hx : input.sx < 0 <;> simp [ComputeBounds, hx]
  · by_cases hy : input.sy < 0 <;> simp [ComputeBounds, hy]
  · by_cases hy : input.sy < 0 <;> simp [ComputeBounds, hy]
  · by_cases hz : input.sz < 0 <;> simp [ComputeBounds, hz]
  · by_cases hz : input.sz < 0 <;> simp [ComputeBounds, hz]
  · by_cases hx : input.sx < 0
    · simp [ComputeBounds, hx]
      exact h01
    · simp [ComputeBounds, hx]
      exact mul_le_mul_of_nonneg_right q01 (not_lt.mp hx)
  · by_cases hy : input.sy < 0
    · simp [ComputeBounds, hy]
      exact h23
    · simp [ComputeBounds, hy]
      exact mul_le_mul_of_nonneg_right q23 (not_lt.mp hy)
  · by_cases hz : input.sz < 0
    · simp [ComputeBounds, hz]
      exact h45
    · simp [ComputeBounds, hz]
      exact mul_le_mul_of_nonneg_right q45 (not_lt.mp hz)

/-- A well-ordered extent with negative z spacing. -/
def c4Input : ImageData := ⟨0, 9, 0, 9, 0, 9, 1, 1, -1, 0, 0, 0, 5⟩

/-- Witness for C4: the theorem applied at a concrete input whose z
spacing is negative, with the extent well-ordering discharged there. -/
theorem c4_witness :
    (ComputeBounds false c4Input).b0 ≤ (ComputeBounds false c4Input).b1 ∧
    (ComputeBounds false c4Input).b4 ≤ (ComputeBounds false c4Input).b5 := by
  obtain ⟨_, _, _, _, _, _, le1, _, le3, _⟩ :=
    c4_point_bounds c4Input (by decide) (by decide) (by decide)
  exact ⟨le1, le3⟩

/-! ## Claim C5 -/

/-- A cell-mode input whose extent starts at 1 on the x axis, with unit
spacing and zero origin. -/
def c5Input : ImageData := ⟨1, 3, 0, 1, 0, 1, 1, 1, 1, 0, 0, 0, 5⟩

/-- C5 counterexample: in cell mode the lower x extent edge (1) coincides
with the whole dataset's lower outer edge (both are read from the same
input), so the claim requires the boundary exactly at
origin + edge * spacing = 1; the code places it at origin = 0. -/
theorem c5_counterexample :
    (ComputeBounds true c5Input).b0 = 0 ∧
    c5Input.ox + (c5Input.e0 : ℚ) * c5Input.sx = 1 ∧
    (ComputeBounds true c5Input).b0 ≠
      c5Input.ox + (c5Input.e0 : ℚ) * c5Input.sx := by
  have hb : (ComputeBounds true c5Input).b0 = 0 := by decide
  have hv : c5Input.ox + (c5Input.e0 : ℚ) * c5Input.sx = 1 := by
    norm_num [c5Input]
  refine ⟨hb, hv, ?_⟩
  rw [hb, hv]
  norm_num

/-- C5 (amended): because the sub-extent and the whole-dataset extent are
read from the same input (and the whole extent's upper entries are then
decremented), the lower comparison always succeeds and the upper one
never does; so on each axis the lower bound slot (swap-adjusted for
negative spacing) is set exactly to the origin, and the upper slot is
offset by half a cell: origin + (upper_edge + 0.5) * spacing. -/
theorem c5_cell_bounds (input : ImageData) :
    ComputeBounds true input =
      { b0 := if input.sx < 0 then
            input.ox + ((input.e1 : ℚ) + 1/2) * input.sx else input.ox
        b1 := if input.sx < 0 then input.ox else
            input.ox + ((input.e1 : ℚ) + 1/2) * input.sx
        b2 := if input.sy < 0 then
            input.oy + ((input.e3 : ℚ) + 1/2) * input.sy else input.oy
        b3 := if input.sy < 0 then input.oy else
            input.oy + ((input.e3 : ℚ) + 1/2) * input.sy
        b4 := if input.sz < 0 then
            input.oz + ((input.e5 : ℚ) + 1/2) * input.sz else input.oz
        b5 := if input.sz < 0 then input.oz else
            input.oz + ((input.e5 : ℚ) + 1/2) * input.sz } := by
  have h1 : ¬(input.e1 = input.e1 - 1) := by omega
  have h3 : ¬(input.e3 = input.e3 - 1) := by omega
  have h5 : ¬(input.e5 = input.e5 - 1) := by omega
  by_cases hx : input.sx < 0 <;> by_cases hy : input.sy < 0 <;>
    by_cases hz : input.sz < 0 <;>
    simp [ComputeBounds, hx, hy, hz, h1, h3, h5]

/-! ## Claim C6 -/

/-- A unit mapper bounding box for exercising GPURender. -/
def c6Bounds : Bounds6 := ⟨0, 1, 0, 1, 0, 1⟩

/-- C6 counterexample: with 4-component scalars both transfer-function
updates fail (return 1), yet GPURender still issues the draw call — the
frame is not aborted, contrary to the claim. -/
theorem c6_counterexample :
    (GPURender c6Bounds c6Bounds true 4 [] [] 0 1).opacityCode = 1 ∧
    (GPURender c6Bounds c6Bounds true 4 [] [] 0 1).colorCode = 1 ∧
    (GPURender c6Bounds c6Bounds true 4 [] [] 0 1).drawIssued = true := by
  refine ⟨rfl, rfl, rfl⟩

/-- C6 (amended): when the number of scalar components is not 1,
UpdateColorTransferFunction and UpdateOpacityTransferFunction each return
1 with a logged diagnostic (not process-fatal), but GPURender ignores
these return values and the draw call for the frame is still issued. -/
theorem c6_multi_component_not_aborted (mb ib : Bounds6) (ncomp : Int)
    (colorTF : List RGBPoint) (opacityTF : List OpacityPoint) (r0 r1 : ℚ)
    (h : ncomp ≠ 1) :
    (GPURender mb ib true ncomp colorTF opacityTF r0 r1).opacityCode = 1 ∧
    (GPURender mb ib true ncomp colorTF opacityTF r0 r1).opacityLogged = true ∧
    (GPURender mb ib true ncomp colorTF opacityTF r0 r1).colorCode = 1 ∧
    (GPURender mb ib true ncomp colorTF opacityTF r0 r1).colorLogged = true ∧
    (GPURender mb ib true ncomp colorTF opacityTF r0 r1).drawIssued = true := by
  refine ⟨?_, ?_, ?_, ?_, rfl⟩ <;>
    simp [GPURender, UpdateOpacityTransferFunction,
      UpdateColorTransferFunction, h]

/-- Witness for C6 (amended): the theorem at 4 components, hypothesis
discharged there. -/
theorem c6_witness :
    (GPURender c6Bounds c6Bounds true 4 [⟨0, 0, 0, 0⟩] [⟨0, 0⟩] 0 1).colorCode = 1 ∧
    (GPURender c6Bounds c6Bounds true 4 [⟨0, 0, 0, 0⟩] [⟨0, 0⟩] 0 1).drawIssued = true := by
  have h := c6_multi_component_not_aborted c6Bounds c6Bounds 4
    [⟨0, 0, 0, 0⟩] [⟨0, 0⟩] 0 1 (by decide)
  exact ⟨h.2.2.1, h.2.2.2.2⟩

/-! ## Claim C7 -/

/-- A color transfer function holding exactly one control point. -/
def c7ColorTF : List RGBPoint := [⟨5, 1, 0, 0⟩]

/-- An opacity transfer function holding exactly one control point. -/
def c7OpacityTF : List OpacityPoint := [⟨5, 1/4⟩]

/-- C7 counterexample: a transfer function with exactly one control point
has fewer than 2 points, yet neither table update appends the two default
points — the seeding guard in the source is GetSize() < 1, not < 2. -/
theorem c7_counterexample :
    c7ColorTF.length < 2 ∧
    (UpdateColorTransferFunction 1 c7ColorTF 0 10).colorTF = c7ColorTF ∧
    c7OpacityTF.length < 2 ∧
    (UpdateOpacityTransferFunction true 1 c7OpacityTF 0 10).opacityTF =
      c7OpacityTF := by
  refine ⟨by decide, rfl, by decide, rfl⟩

/-- C7 (amended): the two default control points — (range_min, black /
fully transparent) and (range_max, white / half-opaque) — are appended
exactly when the supplied function is empty (fewer than 1 point); a
function with at least one point is returned unchanged, no points are
ever removed, and the seeding happens at most once (a second call is the
identity). -/
theorem c7_default_seeding (colorTF : List RGBPoint)
    (opacityTF : List OpacityPoint) (r0 r1 : ℚ) :
    (colorTF = [] →
      (UpdateColorTransferFunction 1 colorTF r0 r1).colorTF =
        colorTF ++ [⟨r0, 0, 0, 0⟩, ⟨r1, 1, 1, 1⟩]) ∧
    (1 ≤ colorTF.length →
      (UpdateColorTransferFunction 1 colorTF r0 r1).colorTF = colorTF) ∧
    ((UpdateColorTransferFunction 1
        (UpdateColorTransferFunction 1 colorTF r0 r1).colorTF r0 r1).colorTF =
      (UpdateColorTransferFunction 1 colorTF r0 r1).colorTF) ∧
    (opacityTF = [] →
      (UpdateOpacityTransferFunction true 1 opacityTF r0 r1).opacityTF =
        opacityTF ++ [⟨r0, 0⟩, ⟨r1, 1/2⟩]) ∧
    (1 ≤ opacityTF.length →
      (UpdateOpacityTransferFunction true 1 opacityTF r0 r1).opacityTF =
        opacityTF) ∧
    ((UpdateOpacityTransferFunction true 1
        (UpdateOpacityTransferFunction true 1 opacityTF r0 r1).opacityTF
        r0 r1).opacityTF =
      (UpdateOpacityTransferFunction true 1 opacityTF r0 r1).opacityTF) := by
  refine ⟨?_, ?_, ?_, ?_, ?_, ?_⟩
  · intro h
    subst h
    rfl
  · intro h
    have hlen : ¬(colorTF.length < 1) := by omega
    simp [UpdateColorTransferFunction, hlen]
  · cases colorTF with
    | nil => rfl
    | cons p ps => rfl
  · intro h
    subst h
    rfl
  · intro h
    have hlen : ¬(opacityTF.length < 1) := by omega
    simp [UpdateOpacityTransferFunction, hlen]
  · cases opacityTF with
    | nil => rfl
    | cons p ps => rfl

/-- Witness for C7 (amended): the empty function is seeded with the two
defaults, hypothesis discharged at the empty list. -/
theorem c7_witness :
    (UpdateColorTransferFunction 1 [] 0 10).colorTF =
      [⟨0, 0, 0, 0⟩, ⟨10, 1, 1, 1⟩] ∧
    (UpdateOpacityTransferFunction true 1 [] 0 10).opacityTF =
      [⟨0, 0⟩, ⟨10, 1/2⟩] := by
  have h := c7_default_seeding [] [] 0 10
  exact ⟨h.1 rfl, h.2.2.2.1 rfl⟩

/-! ## Claim C8 -/

/-- A cell-mode dataset with extent [0,9] per axis, unit spacing, zero
origin. -/
def c8Input : ImageData := ⟨0, 9, 0, 9, 0, 9, 1, 1, 1, 0, 0, 0, 7⟩

/-- The dataset point bounds [0,9] per axis with which the upstream
pipeline fills the inherited mapper Bounds member (this->Bounds) before
rendering. -/
def c8MapperBounds : Bounds6 := ⟨0, 9, 0, 9, 0, 9⟩

/-- C8: at the failing input, ComputeBounds (cell mode) produces the box
[0, 9.5] per axis, but GPURender computes step_size from this->Bounds —
the inherited mapper member, [0, 9] here — so step_size is 1/9 and not
the reciprocal 1/9.5 = 2/19 of the ComputeBounds extent, while the cube
geometry that is actually drawn is built from the ComputeBounds box. -/
theorem c8_stepSize_uses_mapper_bounds :
    ComputeBounds true c8Input = ⟨0, 19/2, 0, 19/2, 0, 19/2⟩ ∧
    (GPURender c8MapperBounds (ComputeBounds true c8Input)
        true 1 [] [] 0 1).uniforms.stepSize0 = 1/9 ∧
    ((1 : ℚ)/9 ≠
      1 / ((ComputeBounds true c8Input).b1 - (ComputeBounds true c8Input).b0)) ∧
    (GPURender c8MapperBounds (ComputeBounds true c8Input)
        true 1 [] [] 0 1).geometryBounds = ComputeBounds true c8Input := by
  have hcb : ComputeBounds true c8Input = ⟨0, 19/2, 0, 19/2, 0, 19/2⟩ := by
    norm_num [ComputeBounds, c8Input]
  refine ⟨hcb, ?_, ?_, rfl⟩
  · norm_num [GPURender, c8MapperBounds]
  · rw [hcb]
    norm_num

/-! ## Claim C9 -/

/-- C9: UpdateNoiseTexture is idempotent per instance — the first call
(null cache) generates and caches the noise grid at the clamped target
size; any call on a non-null cache is the identity (in particular a
second call with the same target size regenerates nothing), and after a
call the cache is always populated. -/
theorem c9_noise_idempotent (noise : Nat → Nat → ℚ) (maxSize : Int)
    (s : NoiseState) :
    (s.noiseTextureData = none →
      UpdateNoiseTexture noise maxSize s =
        ⟨some (generateNoiseGrid noise (clampNoiseSize maxSize).toNat),
         clampNoiseSize maxSize⟩) ∧
    (s.noiseTextureData ≠ none → UpdateNoiseTexture noise maxSize s = s) ∧
    UpdateNoiseTexture noise maxSize (UpdateNoiseTexture noise maxSize s) =
      UpdateNoiseTexture noise maxSize s ∧
    (UpdateNoiseTexture noise maxSize s).noiseTextureData ≠ none := by
  obtain ⟨d, sz⟩ := s
  cases d with
  | none =>
    refine ⟨fun _ => ?_, fun h => absurd rfl h, ?_, ?_⟩
    · simp [UpdateNoiseTexture]
    · simp [UpdateNoiseTexture]
    · simp [UpdateNoiseTexture]
  | some g =>
    refine ⟨fun h => by simp at h, fun _ => ?_, ?_, ?_⟩
    · simp [UpdateNoiseTexture]
    · simp [UpdateNoiseTexture]
    · simp [UpdateNoiseTexture]

/-- A fresh noise cache (null data pointer). -/
def c9State : NoiseState := ⟨none, -1⟩

/-- Witness for C9: the theorem at a concrete noise function, maximum
size 4096 and a fresh cache, hypotheses discharged there. -/
theorem c9_witness :
    UpdateNoiseTexture (fun _ _ => 0) 4096 c9State =
      ⟨some (generateNoiseGrid (fun _ _ => 0) 128), 128⟩ ∧
    UpdateNoiseTexture (fun _ _ => 0) 4096
        (UpdateNoiseTexture (fun _ _ => 0) 4096 c9State) =
      UpdateNoiseTexture (fun _ _ => 0) 4096 c9State := by
  have h := c9_noise_idempotent (fun _ _ => 0) 4096 c9State
  refine ⟨?_, h.2.2.1⟩
  have h1 := h.1 rfl
  simpa [clampNoiseSize] using h1

/-! ## Claim C10 -/

/-- C10: LoadVolume returns 1 and advances VolumeBuildTime past every
existing timestamp on every input — including when the scalar type falls
into the branch that selects no valid texture format — so IsDataDirty
reports the volume clean immediately afterwards, and the upload is not
retried until the input's modification time advances again. -/
theorem c10_loadVolume_always_succeeds (ftex : Bool) (input : ImageData)
    (scalars : ScalarsInfo) (r0 r1 : ℚ) (s : MapperState)
    (hmt : input.mtime ≤ s.mtimeCounter)
    (hbt : s.volumeBuildTime ≤ s.mtimeCounter) :
    (LoadVolume ftex input scalars r0 r1 s).1 = 1 ∧
    s.volumeBuildTime <
      (LoadVolume ftex input scalars r0 r1 s).2.volumeBuildTime ∧
    IsDataDirty input (LoadVolume ftex input scalars r0 r1 s).2 = false := by
  refine ⟨rfl, ?_, ?_⟩
  · simp only [LoadVolume]
    omega
  · simp only [IsDataDirty, LoadVolume, decide_eq_false_iff_not, not_lt]
    omega

/-- A small double-typed dataset. -/
def c10Input : ImageData := ⟨0, 4, 0, 4, 0, 4, 1, 1, 1, 0, 0, 0, 5⟩

/-- A mapper state whose timestamp counter dominates the input mtime. -/
def c10State : MapperState := ⟨3, 5, 1, 0, 0, 0, 0, 0, 0, 0, 0, 0⟩

/-- Witness for C10: the theorem at a VTK_DOUBLE input — whose encoder
branch selects no texture format — with both timestamp hypotheses
discharged there. -/
theorem c10_witness :
    volumeEncoding true 1 .double 0 1 = .unsupportedTodo ∧
    (LoadVolume true c10Input ⟨.double, 1⟩ 0 1 c10State).1 = 1 ∧
    IsDataDirty c10Input
      (LoadVolume true c10Input ⟨.double, 1⟩ 0 1 c10State).2 = false := by
  have h := c10_loadVolume_always_succeeds true c10Input ⟨.double, 1⟩ 0 1
    c10State (by decide) (by decide)
  exact ⟨rfl, h.1, h.2.2⟩

end SinglePassVolumeMapper
